import Mathlib

/-!
Verification development for the content-table compiler of obj-init.c:
record builders, flag resolvers, allocation-range parsing, cross-reference
resolution, effect-chain binding, and the finalization passes that turn
reverse-accumulated builder lists into permanent dense arrays.

Modelling conventions:
* C builder linked lists (head = most recently parsed record) are Lean lists.
* Permanent arrays are total functions `Nat → Option rec` (or `Int → Option rec`
  where the C index is a signed int); `Option.none` means the slot was
  zero-initialized by mem_zalloc and never assigned a record.
* Bit-flag sets are lists of flag names with membership semantics.
* Handlers that can crash (NULL dereference, failed assert) return an
  `Option`; `Option.none` models the abnormal termination / undefined
  behaviour, `some (state, err)` a normal return of error code `err`.
* External collaborators (tval_find_idx, color lookup, dice grammar,
  monster-base lookup) are passed in as function parameters, per the spec
  section on external interfaces.
-/

/-- Parser error codes of the repository (the subset obj-init.c returns). -/
inductive parser_error where
  | PARSE_ERROR_NONE
  | PARSE_ERROR_MISSING_RECORD_HEADER
  | PARSE_ERROR_INVALID_FLAG
  | PARSE_ERROR_INVALID_VALUE
  | PARSE_ERROR_INVALID_ALLOCATION
  | PARSE_ERROR_OUT_OF_BOUNDS
  | PARSE_ERROR_UNRECOGNISED_TVAL
  | PARSE_ERROR_UNRECOGNISED_SLAY
  | PARSE_ERROR_UNRECOGNISED_BRAND
  | PARSE_ERROR_UNRECOGNISED_CURSE
  | PARSE_ERROR_UNDEFINED_DIRECTIVE
  | PARSE_ERROR_INTERNAL
  | PARSE_ERROR_INVALID_DICE
  | PARSE_ERROR_INVALID_MONSTER_BASE
  | PARSE_ERROR_INVALID_SLAY
  | PARSE_ERROR_NOT_SPECIAL_ARTIFACT
  deriving DecidableEq, Repr

open parser_error

/-- Per-element info flags of struct element_info, modelled as the two sets of
element indices that carry EL_INFO_IGNORE and EL_INFO_HATES. -/
structure element_flags where
  el_ignore : List Nat
  el_hates : List Nat
  deriving DecidableEq, Repr

def elementZero : element_flags := { el_ignore := [], el_hates := [] }

/-- One effect node of a record effect chain.  The chain itself is a Lean
list in declaration order (the C list grows at the tail).  The dice spec is
kept as the accepted source string (the dice micro-language evaluator is an
external collaborator). -/
structure effect where
  params2 : Int
  params3 : Int
  dice : Option String
  deriving DecidableEq, Repr

/-- struct slay (obj-init.c builder and finalized records). -/
structure slay where
  code : String
  name : String
  race_flag : Int
  base : Option String
  multiplier : Nat
  power : Nat
  melee_verb : String
  range_verb : String
  next : Option Nat
  deriving DecidableEq, Repr

def slayZero : slay :=
  { code := "", name := "", race_flag := 0, base := Option.none, multiplier := 0,
    power := 0, melee_verb := "", range_verb := "", next := Option.none }

/-- struct activation. -/
structure activation where
  name : String
  aim : Bool
  power : Nat
  index : Nat
  next : Option Nat
  deriving DecidableEq, Repr

def actZero : activation :=
  { name := "", aim := false, power := 0, index := 0, next := Option.none }

/-- struct curse; the fields of the embedded curse object that the modelled
handlers touch are inlined with an obj_ prefix. -/
structure curse where
  name : String
  obj_to_h : Int
  obj_to_d : Int
  obj_to_a : Int
  obj_flags : List String
  obj_el_info : element_flags
  obj_effect : List effect
  desc : String
  next : Option Nat
  deriving DecidableEq, Repr

def curseZero : curse :=
  { name := "", obj_to_h := 0, obj_to_d := 0, obj_to_a := 0, obj_flags := [],
    obj_el_info := elementZero, obj_effect := [], desc := "", next := Option.none }

/-- struct object_base. -/
structure object_base where
  name : Option String
  tval : Int
  attr : Nat
  break_perc : Int
  num_svals : Int
  flags : List String
  kind_flags : List String
  el_info : element_flags
  deriving DecidableEq, Repr

def kbZero : object_base :=
  { name := Option.none, tval := 0, attr := 0, break_perc := 0, num_svals := 0,
    flags := [], kind_flags := [], el_info := elementZero }

/-- struct object_kind. -/
structure object_kind where
  kidx : Nat
  name : String
  tval : Int
  sval : Int
  d_char : Char
  d_attr : Nat
  level : Int
  weight : Int
  cost : Int
  alloc_prob : Int
  alloc_min : Int
  alloc_max : Int
  flags : List String
  kind_flags : List String
  el_info : element_flags
  effect : List effect
  power : Int
  slays : Option (List Bool)
  brands : Option (List Bool)
  curses : Option (List Int)
  next : Option Nat
  deriving DecidableEq, Repr

def kindZero : object_kind :=
  { kidx := 0, name := "", tval := 0, sval := 0, d_char := Char.ofNat 0,
    d_attr := 0, level := 0, weight := 0, cost := 0, alloc_prob := 0,
    alloc_min := 0, alloc_max := 0, flags := [], kind_flags := [],
    el_info := elementZero, effect := [], power := 0, slays := Option.none,
    brands := Option.none, curses := Option.none, next := Option.none }

/-- struct ego_item. -/
structure ego_item where
  eidx : Nat
  name : String
  cost : Int
  rating : Int
  alloc_prob : Int
  alloc_min : Int
  alloc_max : Int
  slays : Option (List Bool)
  brands : Option (List Bool)
  curses : Option (List Int)
  next : Option Nat
  deriving DecidableEq, Repr

def egoZero : ego_item :=
  { eidx := 0, name := "", cost := 0, rating := 0, alloc_prob := 0,
    alloc_min := 0, alloc_max := 0, slays := Option.none, brands := Option.none,
    curses := Option.none, next := Option.none }

/-- struct artifact. -/
structure artifact where
  aidx : Nat
  name : String
  tval : Int
  sval : Int
  alloc_prob : Int
  alloc_min : Int
  alloc_max : Int
  slays : Option (List Bool)
  brands : Option (List Bool)
  curses : Option (List Int)
  next : Option Nat
  deriving DecidableEq, Repr

def artifactZero : artifact :=
  { aidx := 0, name := "", tval := 0, sval := 0, alloc_prob := 0, alloc_min := 0,
    alloc_max := 0, slays := Option.none, brands := Option.none,
    curses := Option.none, next := Option.none }

/-- A permanent table: zero-initialized array, `Option.none` = slot never
assigned a record. -/
def Tbl (α : Type) : Type := Nat → Option α

def emptyTbl {α : Type} : Tbl α := fun _ => Option.none

def upd {α : Type} (t : Tbl α) (i : Nat) (v : α) : Tbl α :=
  fun j => if j = i then some v else t j

/-! ## Finalizers (finish_parse_slay / _act / _object / _artifact) -/

/-- Copy loop of finish_parse_slay: walk the builder list head to tail,
writing slot `count` starting at 1 and nulling each copied next link. -/
def copy_slays : List slay → Nat → Tbl slay → Tbl slay
  | [], _, t => t
  | s :: rest, count, t =>
      copy_slays rest (count + 1) (upd t count { s with next := Option.none })

/-- finish_parse_slay: counts the builder entries, allocates count+1 slots,
copies entries into slots 1..count, and records slay_max = count + 1. -/
def finish_parse_slay (builder : List slay) : Tbl slay × Nat :=
  (copy_slays builder 1 emptyTbl, builder.length + 1)

/-- Copy loop of finish_parse_act: like the slay one, but each copied entry
gets index = count and a next pointer to array slot count+1 when the builder
list has a successor. -/
def copy_acts : List activation → Nat → Tbl activation → Tbl activation
  | [], _, t => t
  | a :: rest, count, t =>
      copy_acts rest (count + 1)
        (upd t count
          { a with
            index := count,
            next := (match rest with
              | [] => Option.none
              | _ :: _ => some (count + 1)) })

/-- finish_parse_act: dense finalization of the activation table with
array-relative next links; act_max = count + 1. -/
def finish_parse_act (builder : List activation) : Tbl activation × Nat :=
  (copy_acts builder 1 emptyTbl, builder.length + 1)

/-- kf_union: union of kind-flag sets (membership semantics). -/
def kf_union (a b : List String) : List String := a ++ b

/-- Copy loop of finish_parse_object: each builder record is written to the
slot named by its explicit kidx; the base kind flags kb_info[tval].kind_flags
are unioned in, and the next link is rewritten to the array slot of the
successor builder record. -/
def copy_kinds (kb_info : Int → object_base) :
    List object_kind → Tbl object_kind → Tbl object_kind
  | [], t => t
  | k :: rest, t =>
      copy_kinds kb_info rest
        (upd t k.kidx
          { k with
            kind_flags := kf_union k.kind_flags (kb_info k.tval).kind_flags,
            next := (match rest with
              | [] => Option.none
              | n :: _ => some n.kidx) })

/-- The max-id scan of finish_parse_object (z_info k_max starts at 0). -/
def max_kidx (builder : List object_kind) : Nat :=
  builder.foldl (fun m k => max m k.kidx) 0

/-- finish_parse_object: sparse finalization of the kind table; the recorded
count is max(explicit index) + 1. -/
def finish_parse_object (kb_info : Int → object_base) (builder : List object_kind) :
    Tbl object_kind × Nat :=
  (copy_kinds kb_info builder emptyTbl, max_kidx builder + 1)

/-- Copy loop of finish_parse_artifact (sparse, by explicit aidx, with
array-relative next links). -/
def copy_artifacts : List artifact → Tbl artifact → Tbl artifact
  | [], t => t
  | a :: rest, t =>
      copy_artifacts rest
        (upd t a.aidx
          { a with next := (match rest with
              | [] => Option.none
              | n :: _ => some n.aidx) })

/-- The max-id scan of finish_parse_artifact. -/
def max_aidx (builder : List artifact) : Nat :=
  builder.foldl (fun m a => max m a.aidx) 0

/-- finish_parse_artifact (the table-building part; the singleton kind
lookups that follow touch other tables and are not part of the array
construction). -/
def finish_parse_artifact (builder : List artifact) : Tbl artifact × Nat :=
  (copy_artifacts builder emptyTbl, max_aidx builder + 1)

/-! ## Builder accumulation and traversal (activation table) -/

/-- parse_act_name: allocate a new zeroed activation, push it as the new head
of the builder list, set its name. -/
def parse_act_name (h : List activation) (nm : String) : List activation :=
  { actZero with name := nm } :: h

/-- Feed a data file worth of name directives, in declaration order, through
parse_act_name. -/
def accumulate_acts (names : List String) : List activation :=
  names.foldl (fun h nm => parse_act_name h nm) []

/-- Forward traversal of a finalized table: start at a slot and follow each
entry next link, collecting names.  Fuel bounds the number of steps. -/
def traverse_acts (t : Tbl activation) : Nat → Nat → List String
  | 0, _ => []
  | fuel + 1, i =>
      match t i with
      | Option.none => []
      | some e =>
          e.name :: (match e.next with
            | Option.none => []
            | some j => traverse_acts t fuel j)

/-! ## Namespace flag resolver (grab_flag, grab_element_flag,
parse_object_flags) -/

/-- grab_flag: look the token up in a flag-name table; on success record the
flag on the given flag set, on failure report no match. -/
def grab_flag (flag_table : List String) (cur : List String) (t : String) :
    Option (List String) :=
  if flag_table.contains t then some (t :: cur) else Option.none

/-- The sscanf split of grab_element_flag: pattern percent-open-bracket-caret
underscore, so the prefix is everything before the first underscore (and must
be nonempty), the suffix everything after it (and must be nonempty). -/
def split_underscore (s : String) : Option (String × String) :=
  match s.toList.takeWhile (fun c => c ≠ '_'), s.toList.dropWhile (fun c => c ≠ '_') with
  | [], _ => Option.none
  | _, [] => Option.none
  | pre, _ :: suf =>
      if suf.isEmpty then Option.none
      else some (String.mk pre, String.mk suf)

/-- The element scan inside grab_element_flag: first index whose element name
equals the suffix. -/
def element_scan (suf : String) : List String → Nat → Option Nat
  | [], _ => Option.none
  | e :: rest, i => if e = suf then some i else element_scan suf rest (i + 1)

/-- grab_element_flag: split the token at the first underscore, find the
element named by the suffix, and record IGNORE or HATES on that element. -/
def grab_element_flag (elements : List String) (info : element_flags)
    (flag_name : String) : Option element_flags :=
  match split_underscore flag_name with
  | Option.none => Option.none
  | some (pre, suf) =>
      match element_scan suf elements 0 with
      | Option.none => Option.none
      | some i =>
          if pre = "IGNORE" then some { info with el_ignore := i :: info.el_ignore }
          else if pre = "HATES" then some { info with el_hates := i :: info.el_hates }
          else Option.none

/-- One token of the parse_object_flags loop: try the object-flag namespace,
then the kind-flag namespace, then the element grammar; every resolver that
recognizes the token mutates the record; the Bool reports whether any did. -/
def object_flags_step (obj_names kind_names elements : List String)
    (k : object_kind) (t : String) : object_kind × Bool :=
  let s1 : object_kind × Bool :=
    match grab_flag obj_names k.flags t with
    | some fl => ({ k with flags := fl }, true)
    | Option.none => (k, false)
  let s2 : object_kind × Bool :=
    match grab_flag kind_names s1.1.kind_flags t with
    | some fl => ({ s1.1 with kind_flags := fl }, true)
    | Option.none => (s1.1, false)
  let s3 : object_kind × Bool :=
    match grab_element_flag elements s2.1.el_info t with
    | some el => ({ s2.1 with el_info := el }, true)
    | Option.none => (s2.1, false)
  (s3.1, s1.2 || s2.2 || s3.2)

/-- parse_object_flags over the strtok token list: process tokens left to
right, stopping at the first one no resolver recognizes with
PARSE_ERROR_INVALID_FLAG; tokens already processed stay applied. -/
def parse_object_flags (obj_names kind_names elements : List String) :
    List String → object_kind → object_kind × parser_error
  | [], k => (k, PARSE_ERROR_NONE)
  | t :: ts, k =>
      let s := object_flags_step obj_names kind_names elements k t
      if s.2 then parse_object_flags obj_names kind_names elements ts s.1
      else (s.1, PARSE_ERROR_INVALID_FLAG)

/-- Whether some resolver of parse_object_flags recognizes the token. -/
def flag_token_recognized (obj_names kind_names elements : List String)
    (t : String) : Bool :=
  obj_names.contains t || kind_names.contains t ||
    (grab_element_flag elements elementZero t).isSome

/-! ## Allocation ranges (sscanf percent-d to percent-d, parse_object_alloc,
parse_ego_alloc, parse_artifact_alloc) -/

/-- The space characters C isspace accepts. -/
def is_space (c : Char) : Bool :=
  c = ' ' || c = '\t' || c = '\n' || c = '\x0b' || c = '\x0c' || c = '\r'

def skipWs (cs : List Char) : List Char := cs.dropWhile is_space

def digitsVal (ds : List Char) : Nat :=
  ds.foldl (fun a c => 10 * a + (c.toNat - 48)) 0

/-- The percent-d conversion of sscanf: skip whitespace, optional sign, then
at least one decimal digit; returns the value and the unconsumed rest. -/
def scan_int (cs0 : List Char) : Option (Int × List Char) :=
  let cs := skipWs cs0
  let signed : Int × List Char :=
    match cs with
    | '-' :: r => (-1, r)
    | '+' :: r => (1, r)
    | _ => (1, cs)
  let ds := signed.2.takeWhile Char.isDigit
  if ds.isEmpty then Option.none
  else some (signed.1 * (digitsVal ds : Int), signed.2.drop ds.length)

/-- sscanf with format percent-d space t o space percent-d, as the alloc
handlers call it: a literal space in the format skips any amount of
whitespace, and trailing text after the second number is ignored. -/
def sscanf_d_to_d (s : String) : Option (Int × Int) :=
  match scan_int s.toList with
  | Option.none => Option.none
  | some (a, r1) =>
      match skipWs r1 with
      | 't' :: 'o' :: r2 =>
          (match scan_int r2 with
           | Option.none => Option.none
           | some (b, _) => some (a, b))
      | _ => Option.none

/-- parse_object_alloc: set alloc_prob, then parse the minmax text; a text
not matching the grammar is PARSE_ERROR_INVALID_ALLOCATION.  There is no
bounds check on the parsed pair. -/
def parse_object_alloc (k : object_kind) (common : Int) (minmax : String) :
    object_kind × parser_error :=
  let k1 := { k with alloc_prob := common }
  match sscanf_d_to_d minmax with
  | Option.none => (k1, PARSE_ERROR_INVALID_ALLOCATION)
  | some (amin, amax) =>
      ({ k1 with alloc_min := amin, alloc_max := amax }, PARSE_ERROR_NONE)

/-- parse_ego_alloc: like parse_object_alloc but rejecting any component
outside 0..255 with the distinct PARSE_ERROR_OUT_OF_BOUNDS. -/
def parse_ego_alloc (e : ego_item) (common : Int) (minmax : String) :
    ego_item × parser_error :=
  let e1 := { e with alloc_prob := common }
  match sscanf_d_to_d minmax with
  | Option.none => (e1, PARSE_ERROR_INVALID_ALLOCATION)
  | some (amin, amax) =>
      if amin > 255 || amax > 255 || amin < 0 || amax < 0 then
        (e1, PARSE_ERROR_OUT_OF_BOUNDS)
      else ({ e1 with alloc_min := amin, alloc_max := amax }, PARSE_ERROR_NONE)

/-- parse_artifact_alloc: same bounds discipline as parse_ego_alloc. -/
def parse_artifact_alloc (a : artifact) (common : Int) (minmax : String) :
    artifact × parser_error :=
  let a1 := { a with alloc_prob := common }
  match sscanf_d_to_d minmax with
  | Option.none => (a1, PARSE_ERROR_INVALID_ALLOCATION)
  | some (amin, amax) =>
      if amin > 255 || amax > 255 || amin < 0 || amax < 0 then
        (a1, PARSE_ERROR_OUT_OF_BOUNDS)
      else ({ a1 with alloc_min := amin, alloc_max := amax }, PARSE_ERROR_NONE)

/-! ## Cross-reference resolution (parse_object_slay, parse_ego_curse).
The list argument holds the finalized target table entries at indices
1..max-1, so the finalized count is length + 1, exactly as finish_parse_slay
and finish_parse_curse record it. -/

/-- The linear scan of parse_object_slay: first 1-based index whose code is
an exact string match. -/
def lookup_code_from (s : String) : List slay → Nat → Option Nat
  | [], _ => Option.none
  | e :: rest, i => if e.code = s then some i else lookup_code_from s rest (i + 1)

/-- parse_object_slay: scan the finalized slay table from index 1; a miss is
PARSE_ERROR_UNRECOGNISED_SLAY with the record untouched; a hit lazily
allocates the membership set sized to the finalized count and sets slot i. -/
def parse_object_slay (slays_tbl : List slay) (k : object_kind) (s : String) :
    object_kind × parser_error :=
  match lookup_code_from s slays_tbl 1 with
  | Option.none => (k, PARSE_ERROR_UNRECOGNISED_SLAY)
  | some i =>
      let cur : List Bool :=
        match k.slays with
        | Option.none => List.replicate (slays_tbl.length + 1) false
        | some arr => arr
      ({ k with slays := some (cur.set i true) }, PARSE_ERROR_NONE)

/-- The linear scan of parse_ego_curse over curse names. -/
def lookup_curse_from (s : String) : List curse → Nat → Option Nat
  | [], _ => Option.none
  | c :: rest, i => if c.name = s then some i else lookup_curse_from s rest (i + 1)

/-- parse_ego_curse: scan the finalized curse table from index 1; a miss is
PARSE_ERROR_UNRECOGNISED_CURSE with the record untouched; a hit lazily
allocates the power array sized to the finalized count and writes the power
at slot i. -/
def parse_ego_curse (curses_tbl : List curse) (e : ego_item) (s : String)
    (power : Int) : ego_item × parser_error :=
  match lookup_curse_from s curses_tbl 1 with
  | Option.none => (e, PARSE_ERROR_UNRECOGNISED_CURSE)
  | some i =>
      let cur : List Int :=
        match e.curses with
        | Option.none => List.replicate (curses_tbl.length + 1) 0
        | some arr => arr
      ({ e with curses := some (cur.set i power) }, PARSE_ERROR_NONE)

/-! ## Effect-chain dice and param handlers (parse_curse_dice,
parse_object_dice, parse_curse_param).  The dice grammar is external:
dice_ok tells whether dice_parse_string accepts the text. -/

/-- Attach a dice string to the last node of an effect chain (the handlers
re-walk the chain to its tail before mutating). -/
def set_last_dice (s : String) : List effect → List effect
  | [] => []
  | [e] => [{ e with dice := some s }]
  | e :: rest => e :: set_last_dice s rest

/-- Set params on the last node of an effect chain. -/
def set_last_params (p2 : Int) (p3 : Option Int) : List effect → List effect
  | [] => []
  | [e] =>
      [{ e with
         params2 := p2,
         params3 := (match p3 with | some v => v | Option.none => e.params3) }]
  | e :: rest => e :: set_last_params p2 p3 rest

/-- parse_curse_dice.  The handler reads curse obj effect and walks
while effect next before any NULL check on the effect, so a record with an
empty effect chain dereferences a NULL pointer: modelled as Option.none. -/
def parse_curse_dice (dice_ok : String → Bool) (priv : Option curse)
    (s : String) : Option (curse × parser_error) :=
  match priv with
  | Option.none => Option.none
  | some c =>
      match c.obj_effect with
      | [] => Option.none
      | _ :: _ =>
          if dice_ok s then
            some ({ c with obj_effect := set_last_dice s c.obj_effect },
                  PARSE_ERROR_NONE)
          else some (c, PARSE_ERROR_INVALID_DICE)

/-- parse_object_dice.  Unlike the curse handler, it tests the effect chain
for NULL first and returns success as a no-op when no effect exists. -/
def parse_object_dice (dice_ok : String → Bool) (priv : Option object_kind)
    (s : String) : Option (object_kind × parser_error) :=
  match priv with
  | Option.none => Option.none
  | some k =>
      match k.effect with
      | [] => some (k, PARSE_ERROR_NONE)
      | _ :: _ =>
          if dice_ok s then
            some ({ k with effect := set_last_dice s k.effect },
                  PARSE_ERROR_NONE)
          else some (k, PARSE_ERROR_INVALID_DICE)

/-- parse_curse_param: tests the effect chain for NULL and returns success
as a no-op when no effect exists. -/
def parse_curse_param (priv : Option curse) (p2 : Int) (p3 : Option Int) :
    Option (curse × parser_error) :=
  match priv with
  | Option.none => Option.none
  | some c =>
      match c.obj_effect with
      | [] => some (c, PARSE_ERROR_NONE)
      | _ :: _ =>
          some ({ c with obj_effect := set_last_params p2 p3 c.obj_effect },
                PARSE_ERROR_NONE)

/-! ## Field handlers and the missing-record check (parse_slay_name,
parse_slay_base, parse_curse_combat).  The parser private slot is
Option-valued: Option.none means no begin directive has been seen. -/

/-- parse_slay_name: checks the private slot and reports
PARSE_ERROR_MISSING_RECORD_HEADER when no record is active. -/
def parse_slay_name (priv : Option slay) (nm : String) :
    Option (Option slay × parser_error) :=
  match priv with
  | Option.none => some (Option.none, PARSE_ERROR_MISSING_RECORD_HEADER)
  | some sl => some (some { sl with name := nm }, PARSE_ERROR_NONE)

/-- lookup_monster_base, an external collaborator: whether the named monster
base exists. -/
def lookup_monster_base (bases : List String) (nm : String) : Bool :=
  bases.contains nm

/-- parse_slay_base: writes through the private pointer with no NULL check,
so with no active record it dereferences NULL (Option.none). -/
def parse_slay_base (bases : List String) (priv : Option slay)
    (base_name : String) : Option (Option slay × parser_error) :=
  match priv with
  | Option.none => Option.none
  | some sl =>
      let sl1 := { sl with base := some base_name }
      if lookup_monster_base bases base_name = false then
        some (some sl1, PARSE_ERROR_INVALID_MONSTER_BASE)
      else if sl1.race_flag ≠ 0 ∧ sl1.base.isSome then
        some (some sl1, PARSE_ERROR_INVALID_SLAY)
      else some (some sl1, PARSE_ERROR_NONE)

/-- parse_curse_combat: asserts the record is active, so with no active
record the process aborts (Option.none) instead of returning an error. -/
def parse_curse_combat (priv : Option curse) (to_h to_d to_a : Int) :
    Option (Option curse × parser_error) :=
  match priv with
  | Option.none => Option.none
  | some c =>
      some (some { c with obj_to_h := to_h, obj_to_d := to_d, obj_to_a := to_a },
            PARSE_ERROR_NONE)

/-! ## Object-base table (defaults, name, graphics, break handlers and
finish_parse_object_base).  tval_find_idx and the color lookups are external
collaborators passed as functions. -/

/-- The private parse data of the object-base file: the accumulated defaults
record and the builder list. -/
structure kb_parsedata where
  defaults : object_base
  kb : List object_base
  deriving DecidableEq, Repr

def kb_init : kb_parsedata := { defaults := kbZero, kb := [] }

/-- parse_object_base_defaults: only the break-chance label is defined; it
stores the value into the defaults record. -/
def parse_object_base_defaults (st : kb_parsedata) (label : String)
    (value : Int) : kb_parsedata × parser_error :=
  if label = "break-chance" then
    ({ st with defaults := { st.defaults with break_perc := value } },
     PARSE_ERROR_NONE)
  else (st, PARSE_ERROR_UNDEFINED_DIRECTIVE)

/-- parse_object_base_name: allocate a record as a copy of the defaults,
push it as the new builder head, then resolve the tval (a failed lookup
leaves the pushed record in place and reports the error); on success the
optional name is stored and num_svals reset to 0. -/
def parse_object_base_name (tvalIdx : String → Int) (st : kb_parsedata)
    (tval_sym : String) (nm : Option String) : kb_parsedata × parser_error :=
  let kb0 := { st.defaults with tval := tvalIdx tval_sym }
  if kb0.tval = -1 then
    ({ st with kb := kb0 :: st.kb }, PARSE_ERROR_UNRECOGNISED_TVAL)
  else
    let kb1 := { kb0 with
      name := (match nm with | some s => some s | Option.none => kb0.name),
      num_svals := 0 }
    ({ st with kb := kb1 :: st.kb }, PARSE_ERROR_NONE)

/-- parse_object_base_graphics: asserts a record is active (abort modelled
as Option.none) and sets its attr via the external color lookups (text form
for multi-character color names, single-character form otherwise). -/
def parse_object_base_graphics (textAttr : String → Nat) (charAttr : Char → Nat)
    (st : kb_parsedata) (color : String) : Option (kb_parsedata × parser_error) :=
  match st.kb with
  | [] => Option.none
  | kb :: rest =>
      let attr :=
        if color.length > 1 then textAttr color
        else charAttr (color.toList.headD (Char.ofNat 0))
      some ({ st with kb := { kb with attr := attr } :: rest }, PARSE_ERROR_NONE)

/-- parse_object_base_break: asserts a record is active and overwrites its
break percentage. -/
def parse_object_base_break (st : kb_parsedata) (breakage : Int) :
    Option (kb_parsedata × parser_error) :=
  match st.kb with
  | [] => Option.none
  | kb :: rest =>
      some ({ st with kb := { kb with break_perc := breakage } :: rest },
            PARSE_ERROR_NONE)

/-- The copy loop of finish_parse_object_base.  The kb_info array is indexed
by tval (TV_MAX slots, zalloc-zeroed).  A record whose tval is ≥ TV_MAX is
skipped by continue, but the loop cursor then re-reads the stale next
pointer: on the very first iteration next is still NULL so the loop just
ends (rest of the builder list dropped), on any later iteration the cursor
does not advance, an infinite loop modelled as Option.none. -/
def finish_kb_copy (tv_max : Int) :
    Bool → List object_base → (Int → Option object_base) →
    Option (Int → Option object_base)
  | _, [], tbl => some tbl
  | first, kb :: rest, tbl =>
      if kb.tval ≥ tv_max then
        (if first then some tbl else Option.none)
      else
        finish_kb_copy tv_max false rest
          (fun j => if j = kb.tval then some kb else tbl j)

/-- finish_parse_object_base: copy each builder record into the slot named
by its tval (later-parsed records are processed first, so the first-declared
record for a tval wins the slot). -/
def finish_parse_object_base (tv_max : Int) (st : kb_parsedata) :
    Option (Int → Option object_base) :=
  finish_kb_copy tv_max true st.kb (fun _ => Option.none)

/-- The directives of the object_base data file. -/
inductive kb_directive where
  | dflt (label : String) (value : Int)
  | name (tval_sym : String) (nm : Option String)
  | graphics (color : String)
  | brk (value : Int)
  deriving DecidableEq, Repr

/-- Dispatch one object_base directive to its handler. -/
def kb_step (tvalIdx : String → Int) (textAttr : String → Nat)
    (charAttr : Char → Nat) (st : kb_parsedata) :
    kb_directive → Option (kb_parsedata × parser_error)
  | kb_directive.dflt l v => some (parse_object_base_defaults st l v)
  | kb_directive.name ts nm => some (parse_object_base_name tvalIdx st ts nm)
  | kb_directive.graphics c => parse_object_base_graphics textAttr charAttr st c
  | kb_directive.brk v => parse_object_base_break st v

/-- Run a list of object_base directives; per the engine contract a
non-success handler result aborts the file load. -/
def run_kb (tvalIdx : String → Int) (textAttr : String → Nat)
    (charAttr : Char → Nat) :
    List kb_directive → kb_parsedata → Option (kb_parsedata × parser_error)
  | [], st => some (st, PARSE_ERROR_NONE)
  | d :: ds, st =>
      match kb_step tvalIdx textAttr charAttr st d with
      | Option.none => Option.none
      | some (st1, e) =>
          if e = PARSE_ERROR_NONE then run_kb tvalIdx textAttr charAttr ds st1
          else some (st1, e)

/-! ## Dummy kind synthesis (write_dummy_object_record,
parse_artifact_base_object).  The finalized kind table is the list k_info of
its k_max entries at indices 0..k_max-1; kb_info is the TV_MAX-slot base
array. -/

def COLOUR_RED : Nat := 4

/-- The state write_dummy_object_record works on: the already-finalized kind
table and its recorded count, plus the base table. -/
structure dummy_kind_state where
  k_info : List object_kind
  k_max : Nat
  kb_info : Int → object_base
  tv_max : Nat

/-- write_dummy_object_record: bump k_max, extend the array by one zeroed
slot at index k_max - 1, fill the dummy (tval, base, mangled name, kidx),
find the matching base by tval to assign the next sval (no base matching is
PARSE_ERROR_INTERNAL, leaving the half-written dummy in the grown table),
copy the sval onto the artifact, give placeholder graphics, and flag the
dummy KF_INSTA_ART. -/
def write_dummy_object_record (st : dummy_kind_state) (a : artifact)
    (nm : String) : dummy_kind_state × artifact × parser_error :=
  let k_max1 := st.k_max + 1
  let dummy0 : object_kind :=
    { kindZero with
      tval := a.tval,
      name := "& " ++ nm ++ "~",
      kidx := k_max1 - 1 }
  match (List.range st.tv_max).find?
      (fun i => (st.kb_info (Int.ofNat i)).tval = a.tval) with
  | Option.none =>
      ({ st with k_max := k_max1, k_info := st.k_info ++ [dummy0] }, a,
       PARSE_ERROR_INTERNAL)
  | some i =>
      let sval1 := (st.kb_info (Int.ofNat i)).num_svals + 1
      let dummy :=
        { dummy0 with
          sval := sval1,
          d_char := '*',
          d_attr := COLOUR_RED,
          kind_flags := ["INSTA_ART"] }
      ({ k_info := st.k_info ++ [dummy],
         k_max := k_max1,
         kb_info := fun j =>
           if j = Int.ofNat i then
             { st.kb_info (Int.ofNat i) with num_svals := sval1 }
           else st.kb_info j,
         tv_max := st.tv_max },
       { a with sval := sval1 }, PARSE_ERROR_NONE)

/-- parse_artifact_base_object: resolve the tval (external lookup), then the
sval by name within that tval (external lookup over the finalized kind
table); a missing sval triggers dummy-kind synthesis. -/
def parse_artifact_base_object (tvalIdx : String → Int)
    (lookupSval : Int → String → Int) (st : dummy_kind_state) (a : artifact)
    (tval_sym sval_sym : String) : dummy_kind_state × artifact × parser_error :=
  let tv := tvalIdx tval_sym
  if tv < 0 then (st, a, PARSE_ERROR_UNRECOGNISED_TVAL)
  else
    let a1 := { a with tval := tv }
    let sv := lookupSval tv sval_sym
    if sv < 0 then write_dummy_object_record st a1 sval_sym
    else (st, { a1 with sval := sv }, PARSE_ERROR_NONE)

/-- Whether the element-grammar resolver recognizes a token, independent of
the record it would mutate. -/
def elem_flag_ok (elements : List String) (t : String) : Bool :=
  match split_underscore t with
  | Option.none => false
  | some (pre, suf) =>
      (element_scan suf elements 0).isSome &&
        (decide (pre = "IGNORE") || decide (pre = "HATES"))

/-- apply_flag_token: the record mutation a single token of the
parse_object_flags loop performs. -/
def apply_flag_token (obj_names kind_names elements : List String)
    (k : object_kind) (t : String) : object_kind :=
  (object_flags_step obj_names kind_names elements k t).1

/-- Discriminator for the object-base default directive. -/
def kb_directive.is_dflt : kb_directive → Bool
  | kb_directive.dflt _ _ => true
  | _ => false

/-- Concrete state for the C9 witness: a one-entry finalized kind table and
a base table whose slot 2 holds tval 2 with 5 subtypes so far. -/
def c9_state : dummy_kind_state :=
  { k_info := [kindZero],
    k_max := 1,
    kb_info := fun j =>
      if j = 2 then { kbZero with tval := 2, num_svals := 5 } else kbZero,
    tv_max := 4 }

/-- Concrete base table for the C10 witness: every base carries the GOOD
kind flag. -/
def c10_kb : Int → object_base := fun _ => { kbZero with kind_flags := ["GOOD"] }

/-- Concrete one-record builder for the C10 witness. -/
def c10_builder : List object_kind := [{ kindZero with kidx := 1 }]

/-- The finalized entry the C10 witness inspects: the record at slot 1 after
finish_parse_object unioned the base flags in. -/
def c10_entry : object_kind :=
  { kindZero with kidx := 1, kind_flags := ["GOOD"] }

/-! ## Helper lemmas -/

/-- Slots below the copy cursor are untouched by the slay copy loop. -/
theorem copy_slays_lt (l : List slay) : ∀ (c : Nat) (t : Tbl slay) (j : Nat),
    j < c → copy_slays l c t j = t j := by
  induction l with
  | nil => intro c t j _; rfl
  | cons s rest ih =>
      intro c t j h
      show copy_slays rest (c + 1) (upd t c { s with next := Option.none }) j = t j
      rw [ih (c + 1) _ j (Nat.lt_succ_of_lt h)]
      unfold upd
      rw [if_neg (Nat.ne_of_lt h)]

/-- Slots below the copy cursor are untouched by the activation copy loop. -/
theorem copy_acts_lt (l : List activation) :
    ∀ (c : Nat) (t : Tbl activation) (j : Nat),
    j < c → copy_acts l c t j = t j := by
  induction l with
  | nil => intro c t j _; rfl
  | cons a rest ih =>
      intro c t j h
      rw [copy_acts.eq_def]
      dsimp only
      rw [ih (c + 1) _ j (Nat.lt_succ_of_lt h)]
      unfold upd
      rw [if_neg (Nat.ne_of_lt h)]

/-- When every builder record carries a positive explicit index, the kind
copy loop leaves slot 0 alone. -/
theorem copy_kinds_zero (kb : Int → object_base) (l : List object_kind) :
    ∀ t : Tbl object_kind, (∀ k ∈ l, 1 ≤ k.kidx) →
    copy_kinds kb l t 0 = t 0 := by
  induction l with
  | nil => intro t _; rfl
  | cons k rest ih =>
      intro t h
      rw [copy_kinds.eq_def]
      dsimp only
      rw [ih _ (fun x hx => h x (List.mem_cons_of_mem _ hx))]
      unfold upd
      have h1 : (0 : Nat) ≠ k.kidx := by
        have := h k (List.mem_cons_self _ _)
        omega
      rw [if_neg h1]

/-- When every builder record carries a positive explicit index, the
artifact copy loop leaves slot 0 alone. -/
theorem copy_artifacts_zero (l : List artifact) :
    ∀ t : Tbl artifact, (∀ a ∈ l, 1 ≤ a.aidx) →
    copy_artifacts l t 0 = t 0 := by
  induction l with
  | nil => intro t _; rfl
  | cons a rest ih =>
      intro t h
      rw [copy_artifacts.eq_def]
      dsimp only
      rw [ih _ (fun x hx => h x (List.mem_cons_of_mem _ hx))]
      unfold upd
      have h1 : (0 : Nat) ≠ a.aidx := by
        have := h a (List.mem_cons_self _ _)
        omega
      rw [if_neg h1]

/-! ## Claim C1 -/

/-- C1, counterexample: the claim asserts slot 0 of every finalized table is
never assigned a record, but finish_parse_object copies a builder record by
its explicit file-supplied index, so a record declared with index 0 is
written straight into slot 0 of the kind table. -/
theorem C1_counterexample :
    (finish_parse_object (fun _ => kbZero)
        [{ kindZero with kidx := 0, name := "pile" }]).1 0 ≠ Option.none := by
  simp [finish_parse_object, copy_kinds, upd, emptyTbl]

/-- C1, amended: finalizing N builder records yields a recorded element
count of N+1 for the dense engine-numbered slay table and
max(explicit index)+1 for the sparse file-numbered kind and artifact
tables; slot 0 is zero-initialized and never assigned for dense tables
unconditionally, and for sparse tables provided every record carries a
positive explicit index (a record declared with index 0 is copied into
slot 0). -/
theorem C1_amended :
    (∀ builder : List slay,
        (finish_parse_slay builder).2 = builder.length + 1 ∧
        (finish_parse_slay builder).1 0 = Option.none) ∧
    (∀ (kb : Int → object_base) (builder : List object_kind),
        (finish_parse_object kb builder).2 = max_kidx builder + 1 ∧
        ((∀ k ∈ builder, 1 ≤ k.kidx) →
          (finish_parse_object kb builder).1 0 = Option.none)) ∧
    (∀ builder : List artifact,
        (finish_parse_artifact builder).2 = max_aidx builder + 1 ∧
        ((∀ a ∈ builder, 1 ≤ a.aidx) →
          (finish_parse_artifact builder).1 0 = Option.none)) := by
  refine ⟨fun builder => ⟨rfl, ?_⟩,
          fun kb builder => ⟨rfl, fun h => ?_⟩,
          fun builder => ⟨rfl, fun h => ?_⟩⟩
  · exact copy_slays_lt builder 1 emptyTbl 0 Nat.zero_lt_one
  · exact copy_kinds_zero kb builder emptyTbl h
  · exact copy_artifacts_zero builder emptyTbl h

/-- C1, witness: the amended theorem evaluated at a one-record slay builder
(count 2), a kind builder whose single record has index 3 (slot 0 empty),
and an artifact builder whose single record has index 2. -/
theorem C1_witness :
    (finish_parse_slay [slayZero]).2 = 2 ∧
    (finish_parse_object (fun _ => kbZero) [{ kindZero with kidx := 3 }]).1 0 =
      Option.none ∧
    (finish_parse_artifact [{ artifactZero with aidx := 2 }]).1 0 =
      Option.none :=
  ⟨(C1_amended.1 [slayZero]).1,
   (C1_amended.2.1 (fun _ => kbZero) [{ kindZero with kidx := 3 }]).2
     (by decide),
   (C1_amended.2.2 [{ artifactZero with aidx := 2 }]).2 (by decide)⟩

/-! ## Claim C2 -/

/-- Traversing the finalized activation table from the copy cursor yields
the builder list names in builder order: the copy loop places the list head
at the cursor slot and links each entry to the next slot. -/
theorem traverse_copy_acts (l : List activation) :
    ∀ (c : Nat) (t : Tbl activation), (∀ j, c ≤ j → t j = Option.none) →
    traverse_acts (copy_acts l c t) l.length c = l.map activation.name := by
  induction l with
  | nil =>
      intro c t h
      rfl
  | cons a rest ih =>
      intro c t h
      cases rest with
      | nil =>
          have hc : copy_acts [a] c t c =
              some { a with index := c, next := Option.none } := by
            rw [copy_acts.eq_def]
            dsimp only
            rw [copy_acts_lt [] (c + 1) _ c (Nat.lt_succ_self c)]
            unfold upd
            rw [if_pos rfl]
          show traverse_acts (copy_acts [a] c t) 1 c = [a.name]
          rw [traverse_acts, hc]
      | cons b rs =>
          have hc : copy_acts (a :: b :: rs) c t c =
              some { a with index := c, next := some (c + 1) } := by
            rw [copy_acts.eq_def]
            dsimp only
            rw [copy_acts_lt (b :: rs) (c + 1) _ c (Nat.lt_succ_self c)]
            unfold upd
            rw [if_pos rfl]
          have hrec : copy_acts (a :: b :: rs) c t =
              copy_acts (b :: rs) (c + 1)
                (upd t c { a with index := c, next := some (c + 1) }) := by
            rw [copy_acts.eq_def]
          have hnone : ∀ j, c + 1 ≤ j →
              upd t c { a with index := c, next := some (c + 1) } j =
                Option.none := by
            intro j hj
            unfold upd
            rw [if_neg (by omega), h j (by omega)]
          show traverse_acts (copy_acts (a :: b :: rs) c t)
              ((b :: rs).length + 1) c = a.name :: (b :: rs).map activation.name
          rw [traverse_acts, hc]
          dsimp only
          rw [hrec, ih (c + 1) _ hnone]

/-- parse_act_name accumulation reverses the declaration order. -/
theorem accumulate_acts_eq (names : List String) :
    accumulate_acts names =
      (names.map (fun nm => { actZero with name := nm })).reverse := by
  have key : ∀ (ns : List String) (acc : List activation),
      ns.foldl (fun h nm => parse_act_name h nm) acc =
        (ns.map (fun nm => { actZero with name := nm })).reverse ++ acc := by
    intro ns
    induction ns with
    | nil => intro acc; rfl
    | cons n ns ih =>
        intro acc
        show ns.foldl (fun h nm => parse_act_name h nm) (parse_act_name acc n) =
          _
        rw [ih (parse_act_name acc n)]
        unfold parse_act_name
        simp
  have := key names []
  simpa [accumulate_acts] using this

/-- The accumulated builder list has one record per declaration. -/
theorem accumulate_acts_length (names : List String) :
    (accumulate_acts names).length = names.length := by
  rw [accumulate_acts_eq]
  simp

/-- The names of the accumulated builder list, head first, are the
declarations reversed. -/
theorem accumulate_acts_names (names : List String) :
    (accumulate_acts names).map activation.name = names.reverse := by
  have hid : (activation.name ∘ fun nm => ({ actZero with name := nm } : activation)) = id := rfl
  rw [accumulate_acts_eq, List.map_reverse, List.map_map, hid, List.map_id]

/-- C2, counterexample: declaring activations A then B and finalizing, the
forward next-link traversal from the first entry (slot 1) visits B then A,
the reverse of the data-file declaration order, contradicting the claim
that traversal restores declaration order. -/
theorem C2_counterexample :
    traverse_acts (finish_parse_act (accumulate_acts ["A", "B"])).1 2 1 =
      ["B", "A"] ∧ (["B", "A"] : List String) ≠ ["A", "B"] := by
  constructor
  · rfl
  · decide

/-- C2, amended: the forward next-link traversal of the finalized
index-linked activation table, starting at its first entry, visits the
records in the builder list accumulation order, which is the reverse of the
original data-file declaration order. -/
theorem C2_amended (names : List String) :
    traverse_acts (finish_parse_act (accumulate_acts names)).1
      names.length 1 = names.reverse := by
  have hlen : names.length = (accumulate_acts names).length :=
    (accumulate_acts_length names).symm
  rw [hlen]
  have h0 : ∀ j, 1 ≤ j → (emptyTbl : Tbl activation) j = Option.none :=
    fun _ _ => rfl
  calc traverse_acts (finish_parse_act (accumulate_acts names)).1
        (accumulate_acts names).length 1
      = (accumulate_acts names).map activation.name :=
        traverse_copy_acts (accumulate_acts names) 1 emptyTbl h0
    _ = names.reverse := accumulate_acts_names names

/-! ## Claim C3 -/

/-- grab_element_flag succeeds exactly when elem_flag_ok holds, whatever the
incoming element info. -/
theorem grab_element_isSome_eq (elements : List String) (info : element_flags)
    (t : String) :
    (grab_element_flag elements info t).isSome = elem_flag_ok elements t := by
  unfold grab_element_flag elem_flag_ok
  cases hsp : split_underscore t with
  | none => rfl
  | some ps =>
      obtain ⟨pre, suf⟩ := ps
      dsimp only
      cases hsc : element_scan suf elements 0 with
      | none => rfl
      | some i =>
          dsimp only
          by_cases h1 : pre = "IGNORE"
          · simp [h1]
          · by_cases h2 : pre = "HATES" <;> simp [h1, h2]

/-- When the token is not in the element grammar, grab_element_flag fails on
any record. -/
theorem grab_element_none_of_not_ok (elements : List String)
    (info : element_flags) (t : String) (h : elem_flag_ok elements t = false) :
    grab_element_flag elements info t = Option.none := by
  have hs := grab_element_isSome_eq elements info t
  rw [h] at hs
  exact Option.not_isSome_iff_eq_none.mp (by simp [hs])

/-- When the token is in the element grammar, grab_element_flag succeeds on
any record. -/
theorem grab_element_some_of_ok (elements : List String)
    (info : element_flags) (t : String) (h : elem_flag_ok elements t = true) :
    ∃ el, grab_element_flag elements info t = some el := by
  have hs := grab_element_isSome_eq elements info t
  rw [h] at hs
  exact Option.isSome_iff_exists.mp hs

/-- An unrecognized token mutates nothing and reports no resolver found. -/
theorem object_flags_step_not_recognized (obj_names kind_names elements : List String)
    (k : object_kind) (t : String)
    (h : flag_token_recognized obj_names kind_names elements t = false) :
    object_flags_step obj_names kind_names elements k t = (k, false) := by
  unfold flag_token_recognized at h
  rw [Bool.or_eq_false_iff, Bool.or_eq_false_iff] at h
  obtain ⟨⟨h1, h2⟩, h3⟩ := h
  have h1m : t ∉ obj_names := by simpa using h1
  have h2m : t ∉ kind_names := by simpa using h2
  have hok : elem_flag_ok elements t = false :=
    (grab_element_isSome_eq elements elementZero t).symm.trans h3
  have hg : grab_element_flag elements k.el_info t = Option.none :=
    grab_element_none_of_not_ok elements k.el_info t hok
  simp [object_flags_step, grab_flag, h1m, h2m, hg]

/-- A recognized token makes some resolver report success. -/
theorem object_flags_step_recognized (obj_names kind_names elements : List String)
    (k : object_kind) (t : String)
    (h : flag_token_recognized obj_names kind_names elements t = true) :
    (object_flags_step obj_names kind_names elements k t).2 = true := by
  unfold flag_token_recognized at h
  cases h1 : obj_names.contains t with
  | true =>
      have h1m : t ∈ obj_names := by simpa using h1
      simp [object_flags_step, grab_flag, h1m]
  | false =>
      have h1m : t ∉ obj_names := by simpa using h1
      cases h2 : kind_names.contains t with
      | true =>
          have h2m : t ∈ kind_names := by simpa using h2
          simp [object_flags_step, grab_flag, h1m, h2m]
      | false =>
          have h2m : t ∉ kind_names := by simpa using h2
          rw [h1, h2] at h
          simp only [Bool.false_or] at h
          have hok : elem_flag_ok elements t = true :=
            (grab_element_isSome_eq elements elementZero t).symm.trans h
          obtain ⟨el, hel⟩ :=
            grab_element_some_of_ok elements k.el_info t hok
          simp [object_flags_step, grab_flag, h1m, h2m, hel]

/-- A fully recognized token list is applied left to right and succeeds. -/
theorem parse_object_flags_all_recognized (obj_names kind_names elements : List String) :
    ∀ (ts : List String) (k : object_kind),
    (∀ u ∈ ts, flag_token_recognized obj_names kind_names elements u = true) →
    parse_object_flags obj_names kind_names elements ts k =
      (ts.foldl (apply_flag_token obj_names kind_names elements) k,
       PARSE_ERROR_NONE) := by
  intro ts
  induction ts with
  | nil => intro k _; rfl
  | cons t ts ih =>
      intro k h
      have hs := object_flags_step_recognized obj_names kind_names elements k t
        (h t (List.mem_cons_self _ _))
      rw [parse_object_flags.eq_def]
      dsimp only
      rw [hs, if_pos rfl]
      exact ih (apply_flag_token obj_names kind_names elements k t)
        (fun u hu => h u (List.mem_cons_of_mem _ hu))

/-- C3: processing a multi-token flag string, if token K (1-indexed) is the
first token no resolver recognizes, the mutations of tokens 1..K-1 remain
applied to the record, tokens K..end are not applied, and the handler
returns PARSE_ERROR_INVALID_FLAG; if every token is recognized the handler
succeeds with every token applied. -/
theorem C3_flags_first_failure :
    (∀ (obj_names kind_names elements : List String) (ts : List String)
        (k : object_kind),
        (∀ u ∈ ts, flag_token_recognized obj_names kind_names elements u = true) →
        parse_object_flags obj_names kind_names elements ts k =
          (ts.foldl (apply_flag_token obj_names kind_names elements) k,
           PARSE_ERROR_NONE)) ∧
    (∀ (obj_names kind_names elements : List String) (ts1 : List String)
        (t : String) (ts2 : List String) (k : object_kind),
        (∀ u ∈ ts1, flag_token_recognized obj_names kind_names elements u = true) →
        flag_token_recognized obj_names kind_names elements t = false →
        parse_object_flags obj_names kind_names elements (ts1 ++ t :: ts2) k =
          (ts1.foldl (apply_flag_token obj_names kind_names elements) k,
           PARSE_ERROR_INVALID_FLAG)) := by
  constructor
  · exact fun o kn e => parse_object_flags_all_recognized o kn e
  · intro obj_names kind_names elements ts1
    induction ts1 with
    | nil =>
        intro t ts2 k _ hbad
        rw [List.nil_append, parse_object_flags.eq_def]
        dsimp only
        rw [object_flags_step_not_recognized obj_names kind_names elements k t hbad]
        simp
    | cons u ts1 ih =>
        intro t ts2 k h hbad
        have hs := object_flags_step_recognized obj_names kind_names elements k u
          (h u (List.mem_cons_self _ _))
        rw [List.cons_append, parse_object_flags.eq_def]
        dsimp only
        rw [hs, if_pos rfl]
        exact ih t ts2 (apply_flag_token obj_names kind_names elements k u)
          (fun v hv => h v (List.mem_cons_of_mem _ hv)) hbad

/-- C3, witness: a concrete flag string whose third token is recognized by
no resolver stops there with PARSE_ERROR_INVALID_FLAG, the first two tokens
(an object flag and an element IGNORE token) already applied. -/
theorem C3_witness :
    parse_object_flags ["SEE_INVIS", "PROT_FEAR"] ["GOOD"] ["ACID", "FIRE"]
        ["SEE_INVIS", "IGNORE_FIRE", "XYZZY", "GOOD"] kindZero =
      (["SEE_INVIS", "IGNORE_FIRE"].foldl
        (apply_flag_token ["SEE_INVIS", "PROT_FEAR"] ["GOOD"] ["ACID", "FIRE"])
        kindZero,
       PARSE_ERROR_INVALID_FLAG) :=
  C3_flags_first_failure.2 ["SEE_INVIS", "PROT_FEAR"] ["GOOD"] ["ACID", "FIRE"]
    ["SEE_INVIS", "IGNORE_FIRE"] "XYZZY" ["GOOD"] kindZero
    (by decide) (by decide)

/-! ## Claim C4 -/

/-- C4, counterexample: the claim requires every allocation-range field of
every entity kind to reject components outside 0..255, but the object-kind
handler parse_object_alloc performs no bounds check: the text 300 to 400 is
accepted with PARSE_ERROR_NONE and stored although 300 exceeds 255. -/
theorem C4_counterexample :
    (parse_object_alloc kindZero 1 "300 to 400").2 = PARSE_ERROR_NONE ∧
    (parse_object_alloc kindZero 1 "300 to 400").1.alloc_min = 300 ∧
    (parse_object_alloc kindZero 1 "300 to 400").1.alloc_max = 400 ∧
    ¬ ((300 : Int) ≤ 255) := by
  refine ⟨by decide, by decide, by decide, by decide⟩

/-- C4, amended: for the ego and artifact allocation-range fields, parsing
the textual value A to B succeeds iff both components lie in 0..255, an
out-of-bounds pair failing with PARSE_ERROR_OUT_OF_BOUNDS, distinct from
the PARSE_ERROR_INVALID_ALLOCATION reported for text not matching the
grammar; the object-kind allocation field accepts any pair the grammar
yields and never reports out-of-bounds. -/
theorem C4_amended :
    (∀ (e : ego_item) (c : Int) (s : String) (a b : Int),
        sscanf_d_to_d s = some (a, b) →
        ((parse_ego_alloc e c s).2 = PARSE_ERROR_NONE ↔
          0 ≤ a ∧ a ≤ 255 ∧ 0 ≤ b ∧ b ≤ 255) ∧
        (¬ (0 ≤ a ∧ a ≤ 255 ∧ 0 ≤ b ∧ b ≤ 255) →
          (parse_ego_alloc e c s).2 = PARSE_ERROR_OUT_OF_BOUNDS)) ∧
    (∀ (ar : artifact) (c : Int) (s : String) (a b : Int),
        sscanf_d_to_d s = some (a, b) →
        ((parse_artifact_alloc ar c s).2 = PARSE_ERROR_NONE ↔
          0 ≤ a ∧ a ≤ 255 ∧ 0 ≤ b ∧ b ≤ 255)) ∧
    (∀ (e : ego_item) (c : Int) (s : String),
        sscanf_d_to_d s = Option.none →
        (parse_ego_alloc e c s).2 = PARSE_ERROR_INVALID_ALLOCATION) ∧
    (∀ (k : object_kind) (c : Int) (s : String),
        (parse_object_alloc k c s).2 ≠ PARSE_ERROR_OUT_OF_BOUNDS) := by
  refine ⟨?_, ?_, ?_, ?_⟩
  · intro e c s a b h
    unfold parse_ego_alloc
    rw [h]
    dsimp only
    constructor
    · by_cases hb : a > 255 ∨ b > 255 ∨ a < 0 ∨ b < 0
      · have : (a > 255 || b > 255 || a < 0 || b < 0) = true := by
          simp only [Bool.or_eq_true, decide_eq_true_eq]
          tauto
        rw [if_pos this]
        constructor
        · intro he; cases he
        · intro hr; omega
      · have : (a > 255 || b > 255 || a < 0 || b < 0) = false := by
          simp only [Bool.or_eq_false_iff, decide_eq_false_iff_not]
          tauto
        rw [if_neg (by simp [this])]
        constructor
        · intro _; omega
        · intro _; rfl
    · intro hr
      have : (a > 255 || b > 255 || a < 0 || b < 0) = true := by
        simp only [Bool.or_eq_true, decide_eq_true_eq]
        omega
      rw [if_pos this]
  · intro ar c s a b h
    unfold parse_artifact_alloc
    rw [h]
    dsimp only
    by_cases hb : a > 255 ∨ b > 255 ∨ a < 0 ∨ b < 0
    · have : (a > 255 || b > 255 || a < 0 || b < 0) = true := by
        simp only [Bool.or_eq_true, decide_eq_true_eq]
        tauto
      rw [if_pos this]
      constructor
      · intro he; cases he
      · intro hr; omega
    · have : (a > 255 || b > 255 || a < 0 || b < 0) = false := by
        simp only [Bool.or_eq_false_iff, decide_eq_false_iff_not]
        tauto
      rw [if_neg (by simp [this])]
      constructor
      · intro _; omega
      · intro _; rfl
  · intro e c s h
    unfold parse_ego_alloc
    rw [h]
  · intro k c s
    unfold parse_object_alloc
    cases h : sscanf_d_to_d s with
    | none => intro hx; cases hx
    | some p => intro hx; cases hx

/-- C4, witness: the amended theorem evaluated on concrete ego allocation
texts: an in-grammar but out-of-bounds pair, an in-bounds pair, and a
malformed text. -/
theorem C4_witness :
    (parse_ego_alloc egoZero 4 "1 to 300").2 = PARSE_ERROR_OUT_OF_BOUNDS ∧
    ((parse_ego_alloc egoZero 4 "20 to 100").2 = PARSE_ERROR_NONE ↔
      (0 : Int) ≤ 20 ∧ (20 : Int) ≤ 255 ∧ (0 : Int) ≤ 100 ∧ (100 : Int) ≤ 255) ∧
    (parse_ego_alloc egoZero 4 "zzz").2 = PARSE_ERROR_INVALID_ALLOCATION :=
  ⟨(C4_amended.1 egoZero 4 "1 to 300" 1 300 (by decide)).2 (by decide),
   (C4_amended.1 egoZero 4 "20 to 100" 20 100 (by decide)).1,
   C4_amended.2.2.1 egoZero 4 "zzz" (by decide)⟩

/-! ## Claim C5 -/

/-- A code absent from the slay table makes the scan miss from any start
index. -/
theorem lookup_code_from_none (s : String) (l : List slay)
    (h : ∀ e ∈ l, e.code ≠ s) : ∀ i, lookup_code_from s l i = Option.none := by
  induction l with
  | nil => intro i; rfl
  | cons e rest ih =>
      intro i
      rw [lookup_code_from, if_neg (h e (List.mem_cons_self _ _))]
      exact ih (fun x hx => h x (List.mem_cons_of_mem _ hx)) (i + 1)

/-- A name absent from the curse table makes the scan miss from any start
index. -/
theorem lookup_curse_from_none (s : String) (l : List curse)
    (h : ∀ c ∈ l, c.name ≠ s) : ∀ i, lookup_curse_from s l i = Option.none := by
  induction l with
  | nil => intro i; rfl
  | cons c rest ih =>
      intro i
      rw [lookup_curse_from, if_neg (h c (List.mem_cons_self _ _))]
      exact ih (fun x hx => h x (List.mem_cons_of_mem _ hx)) (i + 1)

/-- C5: a slay or curse cross-reference directive scans the finalized target
table linearly from index 1 for an exact string match; on a miss the handler
returns the unrecognized-slay or unrecognized-curse error with the record
unchanged and no membership set allocated; on a hit at index i it succeeds,
allocating the membership set on first use sized to the finalized table
count and setting position i. -/
theorem C5_cross_reference :
    (∀ (slays_tbl : List slay) (k : object_kind) (s : String),
        (∀ e ∈ slays_tbl, e.code ≠ s) →
        parse_object_slay slays_tbl k s = (k, PARSE_ERROR_UNRECOGNISED_SLAY)) ∧
    (∀ (slays_tbl : List slay) (k : object_kind) (s : String) (i : Nat),
        lookup_code_from s slays_tbl 1 = some i →
        (parse_object_slay slays_tbl k s).2 = PARSE_ERROR_NONE ∧
        (k.slays = Option.none →
          (parse_object_slay slays_tbl k s).1.slays =
            some ((List.replicate (slays_tbl.length + 1) false).set i true)) ∧
        (∀ arr, k.slays = some arr →
          (parse_object_slay slays_tbl k s).1.slays = some (arr.set i true))) ∧
    (∀ (curses_tbl : List curse) (e : ego_item) (s : String) (pw : Int),
        (∀ c ∈ curses_tbl, c.name ≠ s) →
        parse_ego_curse curses_tbl e s pw =
          (e, PARSE_ERROR_UNRECOGNISED_CURSE)) ∧
    (∀ (curses_tbl : List curse) (e : ego_item) (s : String) (pw : Int) (i : Nat),
        lookup_curse_from s curses_tbl 1 = some i →
        (parse_ego_curse curses_tbl e s pw).2 = PARSE_ERROR_NONE ∧
        (e.curses = Option.none →
          (parse_ego_curse curses_tbl e s pw).1.curses =
            some ((List.replicate (curses_tbl.length + 1) (0 : Int)).set i pw))) := by
  refine ⟨?_, ?_, ?_, ?_⟩
  · intro slays_tbl k s h
    unfold parse_object_slay
    rw [lookup_code_from_none s slays_tbl h 1]
  · intro slays_tbl k s i h
    unfold parse_object_slay
    rw [h]
    refine ⟨rfl, fun hk => ?_, fun arr hk => ?_⟩ <;> rw [hk]
  · intro curses_tbl e s pw h
    unfold parse_ego_curse
    rw [lookup_curse_from_none s curses_tbl h 1]
  · intro curses_tbl e s pw i h
    unfold parse_ego_curse
    rw [h]
    exact ⟨rfl, fun hk => by rw [hk]⟩

/-- C5, witness: a one-entry slay table: the unknown code XYZ misses with
the record unchanged, and the known code EVIL_2 hits at index 1, allocating
a membership set of the finalized size 2 with position 1 set. -/
theorem C5_witness :
    parse_object_slay [{ slayZero with code := "EVIL_2" }] kindZero "XYZ" =
      (kindZero, PARSE_ERROR_UNRECOGNISED_SLAY) ∧
    (parse_object_slay [{ slayZero with code := "EVIL_2" }] kindZero
        "EVIL_2").1.slays =
      some ((List.replicate 2 false).set 1 true) ∧
    parse_ego_curse [{ curseZero with name := "teleport" }] egoZero "slow" 5 =
      (egoZero, PARSE_ERROR_UNRECOGNISED_CURSE) :=
  ⟨C5_cross_reference.1 [{ slayZero with code := "EVIL_2" }] kindZero "XYZ"
     (by decide),
   (C5_cross_reference.2.1 [{ slayZero with code := "EVIL_2" }] kindZero
     "EVIL_2" 1 (by decide)).2.1 rfl,
   C5_cross_reference.2.2.1 [{ curseZero with name := "teleport" }] egoZero
     "slow" 5 (by decide)⟩

/-! ## Claim C6 -/

/-- C6: the claim (and the spec) say a dice directive on a record with zero
prior effect directives succeeds as a no-op; the object-kind handler
parse_object_dice indeed does, and so does parse_curse_param, but
parse_curse_dice walks the effect chain with while effect next before any
NULL test, so on a curse record whose effect chain is empty it dereferences
a NULL pointer (modelled Option.none) instead of returning success: the
code, not the claim, is at fault. -/
theorem C6_no_effect_dice :
    parse_curse_dice (fun _ => true) (some curseZero) "1d4" = Option.none ∧
    parse_object_dice (fun _ => true) (some kindZero) "1d4" =
      some (kindZero, PARSE_ERROR_NONE) ∧
    parse_curse_param (some curseZero) 2 Option.none =
      some (curseZero, PARSE_ERROR_NONE) :=
  ⟨rfl, rfl, rfl⟩

/-! ## Claim C7 -/

/-- C7, counterexample: the claim asserts every non-begin handler invoked
with no active record returns PARSE_ERROR_MISSING_RECORD_HEADER rather than
crashing; but parse_slay_base writes through the NULL record pointer
(crash, modelled Option.none) and parse_curse_combat asserts the record
(abort), so neither returns the error. -/
theorem C7_counterexample :
    parse_slay_base [] Option.none "ANIMAL" = Option.none ∧
    parse_curse_combat Option.none 1 2 3 = Option.none ∧
    parse_slay_base [] Option.none "ANIMAL" ≠
      some (Option.none, PARSE_ERROR_MISSING_RECORD_HEADER) ∧
    parse_curse_combat Option.none 1 2 3 ≠
      some (Option.none, PARSE_ERROR_MISSING_RECORD_HEADER) :=
  ⟨rfl, rfl, by decide, by decide⟩

/-- C7, amended: handlers that test the private record slot, such as
parse_slay_name, do return PARSE_ERROR_MISSING_RECORD_HEADER and leave the
state unchanged when no record is active; but handlers that skip the test
crash there: parse_slay_base dereferences the NULL record and
parse_curse_combat fails its assert, so the claimed contract holds only for
the checking handlers. -/
theorem C7_amended (nm : String) (bases : List String) (b : String)
    (h d a : Int) :
    parse_slay_name Option.none nm =
      some (Option.none, PARSE_ERROR_MISSING_RECORD_HEADER) ∧
    parse_slay_base bases Option.none b = Option.none ∧
    parse_curse_combat Option.none h d a = Option.none :=
  ⟨rfl, rfl, rfl⟩

/-! ## Claim C8 -/

/-- Opening a record never changes the accumulated defaults. -/
theorem parse_object_base_name_defaults (tvalIdx : String → Int)
    (st : kb_parsedata) (ts : String) (nm : Option String) :
    (parse_object_base_name tvalIdx st ts nm).1.defaults = st.defaults := by
  unfold parse_object_base_name
  dsimp only
  split <;> rfl

/-- Any non-default directive that returns normally leaves the defaults
untouched. -/
theorem kb_step_defaults (tvalIdx : String → Int) (textAttr : String → Nat)
    (charAttr : Char → Nat) (st : kb_parsedata) (d : kb_directive)
    (hd : d.is_dflt = false) (r : kb_parsedata × parser_error)
    (hr : kb_step tvalIdx textAttr charAttr st d = some r) :
    r.1.defaults = st.defaults := by
  cases d with
  | dflt l v => simp [kb_directive.is_dflt] at hd
  | name ts nm =>
      simp only [kb_step] at hr
      cases Option.some.inj hr
      exact parse_object_base_name_defaults tvalIdx st ts nm
  | graphics c =>
      simp only [kb_step] at hr
      unfold parse_object_base_graphics at hr
      cases hkb : st.kb with
      | nil => rw [hkb] at hr; cases hr
      | cons kb rest =>
          rw [hkb] at hr
          cases Option.some.inj hr
          rfl
  | brk v =>
      simp only [kb_step] at hr
      unfold parse_object_base_break at hr
      cases hkb : st.kb with
      | nil => rw [hkb] at hr; cases hr
      | cons kb rest =>
          rw [hkb] at hr
          cases Option.some.inj hr
          rfl

/-- A run containing no default directive preserves the defaults. -/
theorem run_kb_defaults (tvalIdx : String → Int) (textAttr : String → Nat)
    (charAttr : Char → Nat) (ds : List kb_directive) :
    ∀ (st st1 : kb_parsedata) (e : parser_error),
    (∀ d ∈ ds, d.is_dflt = false) →
    run_kb tvalIdx textAttr charAttr ds st = some (st1, e) →
    st1.defaults = st.defaults := by
  induction ds with
  | nil =>
      intro st st1 e _ hrun
      simp only [run_kb] at hrun
      obtain ⟨h1, h2⟩ := Prod.mk.injEq .. ▸ Option.some.inj hrun
      rw [← h1]
  | cons d ds ih =>
      intro st st1 e hall hrun
      rw [run_kb.eq_def] at hrun
      dsimp only at hrun
      cases hstep : kb_step tvalIdx textAttr charAttr st d with
      | none => rw [hstep] at hrun; cases hrun
      | some r =>
          obtain ⟨r1, r2⟩ := r
          rw [hstep] at hrun
          dsimp only at hrun
          have hdef := kb_step_defaults tvalIdx textAttr charAttr st d
            (hall d (List.mem_cons_self _ _)) (r1, r2) hstep
          by_cases he : r2 = PARSE_ERROR_NONE
          · rw [if_pos he] at hrun
            exact (ih r1 st1 e
              (fun x hx => hall x (List.mem_cons_of_mem _ hx)) hrun).trans hdef
          · rw [if_neg he] at hrun
            have hp := Option.some.inj hrun
            have h1 : r1 = st1 := congrArg Prod.fst hp
            rw [← h1]
            exact hdef

/-- C8: a default directive setting break-chance to 50, followed by a name
directive opening a record that has no explicit break directive, finalizes
to a base record whose break percentage is 50; and the stored default
persists across all subsequent records until overridden: every record a
name directive opens copies the current default, and no directive other
than another default changes the stored default. -/
theorem C8_break_default (tvalIdx : String → Int) (textAttr : String → Nat)
    (charAttr : Char → Nat) (tv_max t : Int)
    (h1 : tvalIdx "sword" = t) (h2 : 0 ≤ t) (h3 : t < tv_max) :
    (∃ st tbl kb,
        run_kb tvalIdx textAttr charAttr
          [kb_directive.dflt "break-chance" 50,
           kb_directive.name "sword" Option.none] kb_init =
          some (st, PARSE_ERROR_NONE) ∧
        finish_parse_object_base tv_max st = some tbl ∧
        tbl t = some kb ∧ kb.break_perc = 50) ∧
    (∀ (st : kb_parsedata) (ts : String) (nm : Option String),
        ∃ kb rest, (parse_object_base_name tvalIdx st ts nm).1.kb = kb :: rest ∧
          kb.break_perc = st.defaults.break_perc) ∧
    (∀ (ds : List kb_directive) (st st1 : kb_parsedata) (e : parser_error),
        (∀ d ∈ ds, d.is_dflt = false) →
        run_kb tvalIdx textAttr charAttr ds st = some (st1, e) →
        st1.defaults.break_perc = st.defaults.break_perc) := by
  have hne : ¬ (t = -1) := by omega
  have hge : ¬ (t ≥ tv_max) := not_le.mpr h3
  refine ⟨?_, ?_, ?_⟩
  · refine ⟨{ defaults := { kbZero with break_perc := 50 },
              kb := [{ kbZero with break_perc := 50, tval := t }] },
      (fun j => if j = t then
          some { kbZero with break_perc := 50, tval := t }
        else Option.none),
      { kbZero with break_perc := 50, tval := t }, ?_, ?_, ?_, rfl⟩
    · simp [run_kb, kb_step, parse_object_base_defaults,
        parse_object_base_name, kb_init, kbZero, h1, hne]
    · simp [finish_parse_object_base, finish_kb_copy, hge]
    · simp
  · intro st ts nm
    unfold parse_object_base_name
    dsimp only
    by_cases hx : tvalIdx ts = -1
    · rw [if_pos hx]
      exact ⟨_, st.kb, rfl, rfl⟩
    · rw [if_neg hx]
      exact ⟨_, st.kb, rfl, rfl⟩
  · intro ds st st1 e hall hrun
    rw [run_kb_defaults tvalIdx textAttr charAttr ds st st1 e hall hrun]

/-- C8, witness: the scenario conjunct of the theorem evaluated with a
concrete tval lookup mapping sword to 3 and a 20-slot base table. -/
theorem C8_witness :
    ∃ st tbl kb,
        run_kb (fun s => if s = "sword" then (3 : Int) else -1) (fun _ => 0)
          (fun _ => 0)
          [kb_directive.dflt "break-chance" 50,
           kb_directive.name "sword" Option.none] kb_init =
          some (st, PARSE_ERROR_NONE) ∧
        finish_parse_object_base 20 st = some tbl ∧
        tbl 3 = some kb ∧ kb.break_perc = 50 :=
  (C8_break_default (fun s => if s = "sword" then (3 : Int) else -1)
    (fun _ => 0) (fun _ => 0) 20 3 (by decide) (by decide) (by decide)).1

/-! ## Claim C9 -/

/-- C9: when an artifact base-object directive names a subtype with no
matching entry in the finalized kind table (the external sval lookup
misses), exactly one kind entry is synthesized and appended — the recorded
kind count k_max and the table length both grow by exactly one — the new
entry carries the KF_INSTA_ART kind flag, and the artifact sval is set to
the sval assigned to the synthesized kind. -/
theorem C9_dummy_kind (tvalIdx : String → Int)
    (lookupSval : Int → String → Int) (st : dummy_kind_state) (a : artifact)
    (ts ss : String) (tv : Int) (i : Nat)
    (h1 : tvalIdx ts = tv) (h2 : ¬ tv < 0)
    (h3 : lookupSval tv ss < 0)
    (h4 : (List.range st.tv_max).find?
        (fun j => (st.kb_info (Int.ofNat j)).tval = tv) = some i) :
    (parse_artifact_base_object tvalIdx lookupSval st a ts ss).2.2 =
        PARSE_ERROR_NONE ∧
    (parse_artifact_base_object tvalIdx lookupSval st a ts ss).1.k_max =
        st.k_max + 1 ∧
    (parse_artifact_base_object tvalIdx lookupSval st a ts ss).1.k_info.length =
        st.k_info.length + 1 ∧
    ∃ d, (parse_artifact_base_object tvalIdx lookupSval st a ts
            ss).1.k_info.getLast? = some d ∧
      "INSTA_ART" ∈ d.kind_flags ∧
      (parse_artifact_base_object tvalIdx lookupSval st a ts ss).2.1.sval =
        d.sval := by
  unfold parse_artifact_base_object
  rw [h1, if_neg h2, if_pos h3]
  unfold write_dummy_object_record
  rw [h4]
  dsimp only
  refine ⟨rfl, rfl, by simp, ?_⟩
  refine ⟨_, List.getLast?_concat _, ?_, ?_⟩
  · simp
  · rfl

/-- C9, witness: the theorem evaluated on the concrete state, an always
missing sval lookup, and a tval lookup answering 2. -/
theorem C9_witness :
    (parse_artifact_base_object (fun _ => 2) (fun _ _ => -1) c9_state
        artifactZero "light" "Phial").2.2 = PARSE_ERROR_NONE ∧
    (parse_artifact_base_object (fun _ => 2) (fun _ _ => -1) c9_state
        artifactZero "light" "Phial").1.k_max = c9_state.k_max + 1 ∧
    (parse_artifact_base_object (fun _ => 2) (fun _ _ => -1) c9_state
        artifactZero "light" "Phial").1.k_info.length =
      c9_state.k_info.length + 1 ∧
    ∃ d, (parse_artifact_base_object (fun _ => 2) (fun _ _ => -1) c9_state
            artifactZero "light" "Phial").1.k_info.getLast? = some d ∧
      "INSTA_ART" ∈ d.kind_flags ∧
      (parse_artifact_base_object (fun _ => 2) (fun _ _ => -1) c9_state
          artifactZero "light" "Phial").2.1.sval = d.sval :=
  C9_dummy_kind (fun _ => 2) (fun _ _ => -1) c9_state artifactZero
    "light" "Phial" 2 2 rfl (by decide) (by decide) (by decide)

/-! ## Claim C10 -/

/-- The kind copy loop preserves the invariant that every assigned slot
holds a record whose kind flags include all the kind flags of its base. -/
theorem copy_kinds_flags (kb : Int → object_base) (l : List object_kind) :
    ∀ t : Tbl object_kind,
    (∀ i e, t i = some e → ∀ f ∈ (kb e.tval).kind_flags, f ∈ e.kind_flags) →
    ∀ i e, copy_kinds kb l t i = some e →
      ∀ f ∈ (kb e.tval).kind_flags, f ∈ e.kind_flags := by
  induction l with
  | nil => intro t ht i e he; exact ht i e he
  | cons k rest ih =>
      intro t ht i e he
      rw [copy_kinds.eq_def] at he
      dsimp only at he
      refine ih _ ?_ i e he
      intro j e2 he2
      unfold upd at he2
      by_cases hj : j = k.kidx
      · rw [if_pos hj] at he2
        cases Option.some.inj he2
        intro f hf
        exact List.mem_append_right _ hf
      · rw [if_neg hj] at he2
        exact ht j e2 he2

/-- C10: after the kind table is finalized, every assigned kind entry has a
kind-flag set that includes every kind flag of its object base, because
finish_parse_object unions the base kind flags into each copied record. -/
theorem C10_base_flags_subset (kb : Int → object_base)
    (builder : List object_kind) (i : Nat) (e : object_kind)
    (h : (finish_parse_object kb builder).1 i = some e) :
    ∀ f ∈ (kb e.tval).kind_flags, f ∈ e.kind_flags := by
  refine copy_kinds_flags kb builder emptyTbl ?_ i e h
  intro j e2 he2
  cases he2

/-- C10, witness: the theorem evaluated at slot 1 of the finalized concrete
table, for the base kind flag GOOD. -/
theorem C10_witness : "GOOD" ∈ c10_entry.kind_flags :=
  C10_base_flags_subset c10_kb c10_builder 1 c10_entry (by decide) "GOOD"
    (by decide)
